import Mathlib

/-!
Shallow embedding of the MyPay payment-gateway core (Flask/Python source)
and proofs of the frozen specification claims.

The embedding follows the source files:
  * app/providers/standard_bank_pay_provider.py
  * app/providers/cpay_provider.py
  * app/providers/mpesa_provider.py
  * app/services/webhook_service.py
  * app/services/payment_service.py
  * app/services/idempotency_service.py
  * app/schemas/payment_schema.py and app/api/payments.py

Python dictionaries used as lookup tables become association lists;
`dict.get(k, default)` becomes `(List.lookup k).getD default`.  Database rows
become Lean structures, tables become lists of rows, and a service call
becomes a pure function from the database state to a result together with the
new state.  Exceptions become `Except String`.
-/

namespace MyPay

/-! ### Provider status maps

From `StandardBankPayProvider._map_status` (standard_bank_pay_provider.py):
`{"AWAITING_CUSTOMER": "pending", "SETTLED": "completed"}` with
`mapping.get(sbp_status, "processing")`. -/

def sbpStatusMap : List (String × String) :=
  [("AWAITING_CUSTOMER", "pending"), ("SETTLED", "completed")]

def sbpMapStatus (sbp_status : String) : String :=
  (sbpStatusMap.lookup sbp_status).getD "processing"

/-- From `StandardBankPayProvider.handle_webhook`: the webhook event map
`{"PAYMENT_SETTLED": "completed"}` with `status_map.get(event_type, "processing")`. -/
def sbpWebhookStatusMap : List (String × String) :=
  [("PAYMENT_SETTLED", "completed")]

def sbpWebhookMapStatus (event_type : String) : String :=
  (sbpWebhookStatusMap.lookup event_type).getD "processing"

/-- From cpay_provider.py, the table `CPAY_STATUS_MAP`. -/
def CPAY_STATUS_MAP : List (String × String) :=
  [("processed", "completed"),
   ("open", "pending"),
   ("scheduled", "pending"),
   ("denied", "failed"),
   ("canceled", "failed"),
   ("cancelled", "failed"),
   ("expired", "failed"),
   ("reversed", "refunded"),
   ("0000", "completed"),
   ("success", "completed")]

/-- Python `str.lower()`, character by character (the status codes involved
are ASCII). -/
def pyLower (s : String) : String := String.mk (s.data.map Char.toLower)

/-- From cpay_provider.py `_map_status`: `if not cpay_status: return "pending"`,
then `CPAY_STATUS_MAP.get(cpay_status.lower(), "pending")`.  A `None` argument
is `none`; the empty string is falsy in Python, hence also mapped to pending. -/
def cpayMapStatus (cpay_status : Option String) : String :=
  match cpay_status with
  | none => "pending"
  | some s =>
      if s = "" then "pending" else (CPAY_STATUS_MAP.lookup (pyLower s)).getD "pending"

/-- From mpesa_provider.py, the table `_RESULT_CODE_MAP`. -/
def RESULT_CODE_MAP : List (String × String) :=
  [("0", "completed"),
   ("1", "failed"),
   ("17", "failed"),
   ("20", "failed"),
   ("26", "failed"),
   ("32", "failed"),
   ("1032", "failed"),
   ("1037", "failed"),
   ("2001", "failed")]

/-- From mpesa_provider.py `_map_result_code`:
`_RESULT_CODE_MAP.get(str(code), "pending")` (argument already stringified). -/
def mapResultCode (code : String) : String :=
  (RESULT_CODE_MAP.lookup code).getD "pending"

/-- From mpesa_provider.py, the table `_STK_STATUS_MAP`, used by
`MPesaProvider.verify_payment` via `_STK_STATUS_MAP.get(result_code, "pending")`. -/
def STK_STATUS_MAP : List (String × String) :=
  [("0", "completed"), ("1", "pending"), ("1032", "failed"), ("1037", "failed")]

def stkMapStatus (result_code : String) : String :=
  (STK_STATUS_MAP.lookup result_code).getD "pending"

/-! ### M-Pesa phone normaliser

From `MPesaProvider._normalise_phone` (mpesa_provider.py lines 767-783).
Strings are modelled as lists of characters (the source operates on `str`;
we model the ASCII fragment, which is all the function manipulates).
`str.strip()` removes whitespace from both ends; `str.replace(x, "")`
removes every occurrence of `x`. -/

/-- The ASCII whitespace characters recognised by Python `str.strip()`. -/
def pyWhitespace (c : Char) : Bool :=
  c = ' ' || c = '\t' || c = '\n' || c = '\x0d' || c = '\x0b' || c = '\x0c'

/-- Python `str.strip()` on an ASCII string. -/
def pyStrip (s : List Char) : List Char :=
  ((s.dropWhile pyWhitespace).reverse.dropWhile pyWhitespace).reverse

/-- Python `str.replace(c, "")`: remove every occurrence of the character. -/
def removeAll (c : Char) (s : List Char) : List Char :=
  s.filter (fun x => x ≠ c)

/-- The strip/replace prelude of `_normalise_phone`:
`str(phone).strip().replace(" ", "").replace("-", "")`. -/
def strippedPhone (phone : List Char) : List Char :=
  removeAll '-' (removeAll ' ' (pyStrip phone))

/-- `MPesaProvider._normalise_phone`, step by step:
`if not phone: return ""`; strip and drop spaces and hyphens; drop one
leading `+` (`startswith` is expressed through `take`); a leading `0`
becomes `254`; finally prepend `254` unless the string already starts
with it. -/
def normalisePhone (phone : List Char) : List Char :=
  if phone = [] then []
  else
    let s0 := strippedPhone phone
    let s1 := if s0.take 1 = ['+'] then s0.drop 1 else s0
    let s2 := if s1.take 1 = ['0'] then '2' :: '5' :: '4' :: s1.drop 1 else s1
    if s2.take 3 = ['2', '5', '4'] then s2 else '2' :: '5' :: '4' :: s2

/-! ### Data model

From app/models/transaction.py and app/models/webhook_event.py.  Database
tables are lists of rows; `query.get(pk)` / `filter_by(...).first()` become
`List.find?`; mutating the fetched row and committing becomes replacing the
first matching row (primary keys are unique, so first-match replacement is
exact).  JSONB blobs that the services only write through are modelled as
association lists of strings. -/

inductive TransactionStatus where
  | PENDING
  | PROCESSING
  | COMPLETED
  | FAILED
  | REFUNDED
deriving DecidableEq, Repr

/-- The `str` value of each `TransactionStatus` enum member. -/
def statusValue : TransactionStatus → String
  | .PENDING => "pending"
  | .PROCESSING => "processing"
  | .COMPLETED => "completed"
  | .FAILED => "failed"
  | .REFUNDED => "refunded"

structure Transaction where
  id : Nat
  idempotency_key : String
  provider : String
  provider_transaction_id : Option String
  provider_response : Option (List (String × String))
  amount : Rat
  status : TransactionStatus
  completed_at : Option Int
deriving DecidableEq, Repr

structure WebhookEvent where
  id : Nat
  transaction_id : Option Nat
  provider : String
  event_type : String
  payload : String
  signature : Option String
  verified : Bool
  processed : Bool
  retry_count : Nat
  error_message : Option String
  created_at : Int
  processed_at : Option Int
deriving DecidableEq, Repr

/-- An audit_logs row (app/models/audit_log.py); only the fields the claims
mention are carried. -/
structure AuditLog where
  transaction_id : Nat
  event_type : String
deriving DecidableEq, Repr

structure DB where
  transactions : List Transaction
  webhook_events : List WebhookEvent
  audit_logs : List AuditLog
deriving DecidableEq, Repr

/-- The normalised value an adapter's `handle_webhook` returns
(`{'transaction_id', 'event_type', 'status', 'additional_data'}`). -/
structure HandleWebhookResult where
  transaction_id : String
  event_type : String
  status : String
  additional_data : String
deriving DecidableEq, Repr

/-- The normalised value an adapter's `verify_payment` returns
(only the fields payment_service reads). -/
structure VerifyPaymentResult where
  status : String
  raw : String
deriving DecidableEq, Repr

/-- A provider adapter, reduced to the operations the services invoke.
An operation that can raise is `Except String`.  The concrete adapters'
status maps are modelled separately above. -/
structure ProviderModel where
  verify_webhook_signature : String → String → Bool
  handle_webhook : String → Except String HandleWebhookResult
  verify_payment : Option String → Except String VerifyPaymentResult
  refund_payment : Option String → Option Rat → Option String → Except String String

/-- `get_provider`: the process-wide name-to-adapter registry
(app/providers/__init__.py); `none` models the unknown-provider exception. -/
abbrev Registry := String → Option ProviderModel

/-- Replace the first list element satisfying `p` (SQLAlchemy mutates the one
row fetched by a unique key and commits). -/
def updateFirst (p : α → Bool) (f : α → α) : List α → List α
  | [] => []
  | x :: xs => if p x then f x :: xs else x :: updateFirst p f xs

/-- Python `d[k] = v` on a JSON object modelled as an association list
(dict keys are unique: overwrite the binding if present, append if not). -/
def setKey (k : String) (v : α) : List (String × α) → List (String × α)
  | [] => [(k, v)]
  | (k', v') :: m => if k' = k then (k, v) :: m else (k', v') :: setKey k v m

/-- Python truthiness of an `Optional[str]` / `Optional[bytes]` argument:
`None` and the empty value are falsy. -/
def truthyStr : Option String → Bool
  | none => false
  | some s => s != ""

/-! ### Webhook service (app/services/webhook_service.py) -/

def MAX_RETRY_ATTEMPTS : Nat := 5

def RETRY_SCHEDULE : List Nat := [60, 300, 900, 3600, 21600]

/-- The interval chosen by `retry_failed_webhooks` for a given retry_count:
`RETRY_SCHEDULE[-1]` once past the table, else `RETRY_SCHEDULE[retry_count]`. -/
def retryInterval (retry_count : Nat) : Nat :=
  if RETRY_SCHEDULE.length ≤ retry_count then RETRY_SCHEDULE.getLastD 0
  else RETRY_SCHEDULE.getD retry_count 0

/-- `WebhookService.receive_webhook`.  The row is inserted with
`verified=False, processed=False` (and the column default `retry_count=0`);
if a truthy signature and raw payload are present the adapter's
`verify_webhook_signature` result is written to `verified` (an exception from
provider lookup writes `error_message` instead and leaves `verified=False`);
otherwise `verified=True`.  `fresh_id` stands for the generated UUID and
`event_type` for `payload.get('event', payload.get('type', 'unknown'))`. -/
def receive_webhook (reg : Registry) (fresh_id : Nat) (now : Int)
    (provider : String) (payload : String) (event_type : String)
    (signature : Option String) (raw_payload : Option String)
    (db : DB) : WebhookEvent × DB :=
  let base : WebhookEvent :=
    { id := fresh_id, transaction_id := none, provider := provider,
      event_type := event_type, payload := payload, signature := signature,
      verified := false, processed := false, retry_count := 0,
      error_message := none, created_at := now, processed_at := none }
  let e1 :=
    if truthyStr signature && truthyStr raw_payload then
      match reg provider with
      | some prov =>
          { base with
            verified :=
              prov.verify_webhook_signature (raw_payload.getD "") (signature.getD "") }
      | none =>
          { base with
            error_message :=
              some ("Signature verification failed: unknown provider " ++ provider) }
    else
      { base with verified := true }
  (e1, { db with webhook_events := db.webhook_events ++ [e1] })

/-- The `except`/early-failure bookkeeping of `process_webhook`:
`webhook_event.error_message = msg; webhook_event.retry_count += 1;
commit()`; nothing else changes. -/
def record_webhook_failure (webhook_event_id : Nat) (webhook_event : WebhookEvent)
    (msg : String) (db : DB) : DB :=
  { db with
    webhook_events :=
      updateFirst (fun e => e.id == webhook_event_id)
        (fun _ => { webhook_event with
          error_message := some msg,
          retry_count := webhook_event.retry_count + 1 }) db.webhook_events }

/-- The transaction as rewritten by the success path of `process_webhook`:
status from the adapter's normalised status (anything other than
completed/failed/refunded leaves it alone), `completed_at` on completion,
and `webhook_data` merged into `provider_response`. -/
def webhook_updated_transaction (now : Int) (result : HandleWebhookResult)
    (transaction : Transaction) : Transaction :=
  { transaction with
    status :=
      if result.status = "completed" then TransactionStatus.COMPLETED
      else if result.status = "failed" then TransactionStatus.FAILED
      else if result.status = "refunded" then TransactionStatus.REFUNDED
      else transaction.status,
    completed_at :=
      if result.status = "completed" then some now else transaction.completed_at,
    provider_response :=
      match transaction.provider_response with
      | some m => some (setKey "webhook_data" result.additional_data m)
      | none => some [("webhook_data", result.additional_data)] }

/-- The success path of `process_webhook`: link the event, apply the status,
mark processed, commit, and log one audit event. -/
def apply_webhook (now : Int) (webhook_event_id : Nat)
    (webhook_event : WebhookEvent) (result : HandleWebhookResult)
    (transaction : Transaction) (db : DB) : DB :=
  { db with
    transactions :=
      updateFirst (fun t => t.provider_transaction_id == some result.transaction_id)
        (fun _ => webhook_updated_transaction now result transaction) db.transactions,
    webhook_events :=
      updateFirst (fun e => e.id == webhook_event_id)
        (fun _ => { webhook_event with
          transaction_id := some transaction.id,
          processed := true, processed_at := some now }) db.webhook_events,
    audit_logs := db.audit_logs ++
      [{ transaction_id := transaction.id, event_type := result.event_type }] }

/-- `WebhookService.process_webhook`.  `Except.error` models the uncaught
`ValueError` for a missing event; the `Bool` is the function's return value.
Any exception inside the `try` block (unknown provider, adapter failure)
lands in the `except` branch: `error_message := str(e)`, `retry_count += 1`,
return `False`. -/
def process_webhook (reg : Registry) (now : Int) (webhook_event_id : Nat)
    (db : DB) : Except String (Bool × DB) :=
  match db.webhook_events.find? (fun e => e.id == webhook_event_id) with
  | none => .error "Webhook event not found"
  | some webhook_event =>
    if webhook_event.processed then
      .ok (true, db)
    else if !webhook_event.verified then
      .ok (false, record_webhook_failure webhook_event_id webhook_event
        "Webhook signature not verified" db)
    else
      match reg webhook_event.provider with
      | none =>
          .ok (false, record_webhook_failure webhook_event_id webhook_event
            ("Unknown provider: " ++ webhook_event.provider) db)
      | some prov =>
        match prov.handle_webhook webhook_event.payload with
        | .error msg =>
            .ok (false, record_webhook_failure webhook_event_id webhook_event msg db)
        | .ok result =>
          match db.transactions.find?
              (fun t => t.provider_transaction_id == some result.transaction_id) with
          | none =>
              .ok (false, record_webhook_failure webhook_event_id webhook_event
                ("Transaction not found: " ++ result.transaction_id) db)
          | some transaction =>
              .ok (true, apply_webhook now webhook_event_id webhook_event result
                transaction db)

/-- The scan query of `retry_failed_webhooks`:
`WebhookEvent.processed == False, WebhookEvent.retry_count < MAX_RETRY_ATTEMPTS`. -/
def retryScan (db : DB) : List WebhookEvent :=
  db.webhook_events.filter
    (fun e => !e.processed && decide (e.retry_count < MAX_RETRY_ATTEMPTS))

/-- `WebhookService.retry_failed_webhooks`: scan for `processed=false` and
`retry_count < MAX_RETRY_ATTEMPTS`; for each, if the schedule interval since
`created_at` has elapsed, call `process_webhook`; count the successes.
A raised exception is logged and swallowed. -/
def retry_failed_webhooks (reg : Registry) (now : Int) (db : DB) : Nat × DB :=
  (retryScan db).foldl
    (fun acc e =>
      if (retryInterval e.retry_count : Int) ≤ now - e.created_at then
        match process_webhook reg now e.id acc.2 with
        | .ok (true, db1) => (acc.1 + 1, db1)
        | .ok (false, db1) => (acc.1, db1)
        | .error _ => acc
      else acc)
    (0, db)

/-- `WebhookService.get_dead_letter_queue`: events with `processed=false` and
`retry_count >= MAX_RETRY_ATTEMPTS`. -/
def get_dead_letter_queue (db : DB) : List WebhookEvent :=
  db.webhook_events.filter
    (fun e => !e.processed && decide (MAX_RETRY_ATTEMPTS ≤ e.retry_count))

/-! ### Payment service (app/services/payment_service.py) -/

/-- `PaymentService.verify_payment`.  Returns the new database state together
with the returned transaction or the raised exception.  A completed or
refunded transaction is returned without verification.  The `except` branch
logs a `payment.verification_failed` audit event and re-raises. -/
def verify_payment (reg : Registry) (now : Int) (transaction_id : Nat)
    (db : DB) : DB × Except String Transaction :=
  match db.transactions.find? (fun t => t.id == transaction_id) with
  | none => (db, .error "Transaction not found")
  | some transaction =>
    if transaction.status = TransactionStatus.COMPLETED ∨
        transaction.status = TransactionStatus.REFUNDED then
      (db, .ok transaction)
    else
      let logFailure := fun (msg : String) =>
        ({ db with
           audit_logs := db.audit_logs ++
             [{ transaction_id := transaction.id,
                event_type := "payment.verification_failed" }] },
         Except.error msg)
      match reg transaction.provider with
      | none => logFailure ("Unknown provider: " ++ transaction.provider)
      | some prov =>
        match prov.verify_payment transaction.provider_transaction_id with
        | .error e => logFailure e
        | .ok result =>
          let t1 :=
            if result.status = "completed" then
              { transaction with
                status := TransactionStatus.COMPLETED,
                completed_at := some now,
                provider_response :=
                  some [("status", result.status), ("raw", result.raw)] }
            else if result.status = "failed" then
              { transaction with
                status := TransactionStatus.FAILED,
                provider_response :=
                  some [("status", result.status), ("raw", result.raw)] }
            else
              { transaction with
                provider_response :=
                  some [("status", result.status), ("raw", result.raw)] }
          let db1 := { db with
            transactions := updateFirst (fun t => t.id == transaction_id)
              (fun _ => t1) db.transactions }
          let db2 :=
            if transaction.status ≠ t1.status then
              { db1 with
                audit_logs := db1.audit_logs ++
                  [{ transaction_id := transaction.id,
                     event_type := "payment." ++ statusValue t1.status }] }
            else db1
          (db2, .ok t1)

/-- `PaymentService.refund_payment`.  A missing transaction and a
non-COMPLETED status raise `ValueError` before any state change; otherwise a
`refund.initiated` audit row is written, the adapter refund runs, and on
success the status becomes REFUNDED with the refund merged into the stored
provider response (`{**transaction.provider_response, 'refund': result}`,
which itself raises when `provider_response` is `None`). -/
def refund_payment (reg : Registry) (transaction_id : Nat)
    (amount : Option Rat) (reason : Option String)
    (db : DB) : DB × Except String Transaction :=
  match db.transactions.find? (fun t => t.id == transaction_id) with
  | none => (db, .error "Transaction not found")
  | some transaction =>
    if transaction.status ≠ TransactionStatus.COMPLETED then
      (db, .error "Can only refund completed transactions")
    else
      let db0 := { db with
        audit_logs := db.audit_logs ++
          [({ transaction_id := transaction.id,
              event_type := "refund.initiated" } : AuditLog)] }
      let logFailure := fun (msg : String) =>
        ({ db0 with
           audit_logs := db0.audit_logs ++
             [({ transaction_id := transaction.id,
                 event_type := "refund.failed" } : AuditLog)] },
         Except.error msg)
      match reg transaction.provider with
      | none => logFailure ("Unknown provider: " ++ transaction.provider)
      | some prov =>
        match prov.refund_payment transaction.provider_transaction_id amount reason with
        | .error e => logFailure e
        | .ok result =>
          match transaction.provider_response with
          | none => logFailure "TypeError: provider_response is None"
          | some m =>
            let t1 := { transaction with
              status := TransactionStatus.REFUNDED,
              provider_response := some (setKey "refund" result m) }
            let db1 := { db0 with
              transactions := updateFirst (fun t => t.id == transaction_id)
                (fun _ => t1) db0.transactions,
              audit_logs := db0.audit_logs ++
                [({ transaction_id := transaction.id,
                    event_type := "refund.completed" } : AuditLog)] }
            (db1, .ok t1)

/-! ### Idempotency layer (app/services/idempotency_service.py)

The response bodies the decorator caches and replays are JSON objects;
`_status_code` is injected as an integer member.  `redis.set(key, v, ex=ttl)`
makes the key readable until `now + ttl`. -/

inductive JVal where
  | s (v : String)
  | n (v : Nat)
  | b (v : Bool)
deriving DecidableEq, Repr

/-- A JSON response body (top-level object), as cached by the decorator. -/
abbrev JBody := List (String × JVal)

structure CacheEntry where
  value : JBody
  expires_at : Int
deriving DecidableEq, Repr

abbrev Cache := List (String × CacheEntry)

def DEFAULT_TTL : Nat := 86400

/-- `IdempotencyService.get_cached_response` through redis `get`:
present and unexpired keys only. -/
def cache_get (now : Int) (key : String) (c : Cache) : Option JBody :=
  match c.lookup key with
  | none => none
  | some e => if now < e.expires_at then some e.value else none

/-- `IdempotencyService.cache_response` through redis `set(..., ex=ttl)`. -/
def cache_set (now : Int) (ttl : Nat) (key : String) (v : JBody) (c : Cache) : Cache :=
  setKey key { value := v, expires_at := now + (ttl : Int) } c

/-- The `@idempotent(ttl)` decorator around a handler returning
`(jsonify(body), status_code)`.  A missing header is rejected with 400.  On a
cache hit (`if cached:` — a non-empty cached object) the cached body is
returned with `cached.get('_status_code', 200)`.  Otherwise the handler runs,
`_status_code` is set on a copy of its body, and that copy is cached; the
handler's own response is returned unmodified. -/
def idempotent_call (ttl : Nat) (now : Int) (idempotency_key : Option String)
    (handler : Unit → JBody × Nat) (c : Cache) : (JBody × Nat) × Cache :=
  match idempotency_key with
  | none =>
      (([("error", .s "Missing Idempotency-Key header"),
         ("message", .s "All mutation requests require an Idempotency-Key header")],
        400), c)
  | some key =>
    let redisKey := "idempotency:" ++ key
    let runHandler := fun (_ : Unit) =>
      let result := handler ()
      let response_json := setKey "_status_code" (JVal.n result.2) result.1
      (result, cache_set now ttl redisKey response_json c)
    match cache_get now redisKey c with
    | some cached =>
        if cached = [] then runHandler ()
        else
          ((cached,
            match cached.lookup "_status_code" with
            | some (.n v) => v
            | _ => 200), c)
    | none => runHandler ()

/-! ### Amount validation at the initialize endpoint
(app/schemas/payment_schema.py and app/api/payments.py) -/

/-- `InitializePaymentSchema.validate_amount`: amounts `<= 0` raise
`ValidationError('Amount must be greater than 0')`. -/
def validate_amount (value : Rat) : Except String Unit :=
  if value ≤ 0 then .error "Amount must be greater than 0" else .ok ()

structure HttpResponse where
  status_code : Nat
  success : Bool
deriving DecidableEq, Repr

/-- The `initialize_payment` view: `initialize_schema.load` runs the amount
validator; a `ValidationError` is answered with HTTP 400 before
`PaymentService.initialize_payment` ever runs, so no transaction is created.
On success the rest of the view runs (abstracted as `handler`). -/
def initialize_payment_endpoint (handler : DB → HttpResponse × DB)
    (amount : Rat) (db : DB) : HttpResponse × DB :=
  match validate_amount amount with
  | .error _ => ({ status_code := 400, success := false }, db)
  | .ok _ => handler db

/-! ### Concrete fixtures used by counterexamples and witnesses -/

/-- A minimal adapter whose webhook handler reports a completed payment for
upstream reference `ptx-1` (the shape every adapter's `handle_webhook`
returns). -/
def demoProvider : ProviderModel where
  verify_webhook_signature := fun _ _ => true
  handle_webhook := fun _ =>
    .ok { transaction_id := "ptx-1", event_type := "payment.completed",
          status := "completed", additional_data := "ok" }
  verify_payment := fun _ => .ok { status := "completed", raw := "ok" }
  refund_payment := fun _ _ _ => .ok "refund-ok"

def demoRegistry : Registry := fun p => if p = "demo" then some demoProvider else none

def demoTransaction (s : TransactionStatus) : Transaction :=
  { id := 1, idempotency_key := "idem-1", provider := "demo",
    provider_transaction_id := some "ptx-1",
    provider_response := some [("init", "raw")],
    amount := 50, status := s, completed_at := none }

def demoEvent : WebhookEvent :=
  { id := 7, transaction_id := none, provider := "demo",
    event_type := "payment.completed", payload := "payload",
    signature := none, verified := true, processed := false,
    retry_count := 0, error_message := none, created_at := 0,
    processed_at := none }

def demoDB (s : TransactionStatus) : DB :=
  { transactions := [demoTransaction s], webhook_events := [demoEvent],
    audit_logs := [] }

/-- A database holding a PROCESSING transaction and no webhook events yet. -/
def preWebhookDB : DB :=
  { transactions := [demoTransaction TransactionStatus.PROCESSING],
    webhook_events := [], audit_logs := [] }

/-- The state after `receive(evt)` on `preWebhookDB` (event id 7). -/
def receivedDB : DB :=
  (receive_webhook demoRegistry 7 0 "demo" "payload" "payment.completed"
    none none preWebhookDB).2

/-- The state after the first successful `process(7)` on `receivedDB`. -/
def processedDB : DB :=
  (((process_webhook demoRegistry 5 7 receivedDB).toOption).map Prod.snd).getD receivedDB

/-- A database holding a verified unprocessed event but no transaction that
matches the upstream reference, for the transaction-not-found path. -/
def orphanDB : DB :=
  { transactions := [], webhook_events := [demoEvent], audit_logs := [] }

/-- An unprocessed event at `retry_count = MAX_RETRY_ATTEMPTS - 1`. -/
def retryEvent : WebhookEvent :=
  { demoEvent with id := 11, retry_count := 4 }

/-- An unprocessed event that exhausted its retry budget. -/
def deadEvent : WebhookEvent :=
  { demoEvent with id := 12, retry_count := 5 }

def retryDB : DB :=
  { transactions := [], webhook_events := [retryEvent], audit_logs := [] }

def deadDB : DB :=
  { transactions := [], webhook_events := [deadEvent], audit_logs := [] }

/-- A handler returning the envelope the initialize endpoint produces. -/
def demoHandler : Unit → JBody × Nat :=
  fun _ => ([("success", JVal.b true)], 201)

/-- The rest of the initialize view once validation passed. -/
def okHandler : DB → HttpResponse × DB :=
  fun db => ({ status_code := 201, success := true }, db)

/-! ### Helper lemmas on the list primitives of the embedding -/

theorem setKey_cons_eq (k : String) (v v' : α) (m : List (String × α)) :
    setKey k v ((k, v') :: m) = (k, v) :: m := by
  simp [setKey]

theorem lookup_setKey_self (k : String) (v : α) (m : List (String × α)) :
    (setKey k v m).lookup k = some v := by
  induction m with
  | nil => simp [setKey]
  | cons kv m ih =>
    rcases kv with ⟨k', v'⟩
    by_cases h : k' = k
    · subst h; simp [setKey]
    · have hne : (k == k') = false := by
        simp only [beq_eq_false_iff_ne, ne_eq]
        exact fun hh => h hh.symm
      simp [setKey, h, List.lookup, hne, ih]

theorem setKey_ne_nil (k : String) (v : α) (m : List (String × α)) :
    setKey k v m ≠ [] := by
  cases m with
  | nil => simp [setKey]
  | cons kv m =>
    rcases kv with ⟨k', v'⟩
    simp only [setKey]
    split <;> simp

theorem updateFirst_length (p : α → Bool) (f : α → α) (l : List α) :
    (updateFirst p f l).length = l.length := by
  induction l with
  | nil => rfl
  | cons x xs ih =>
    simp only [updateFirst]
    split <;> simp [ih]

theorem find?_updateFirst {p : α → Bool} {f : α → α} {l : List α} {a : α}
    (h : l.find? p = some a) (hf : p (f a) = true) :
    (updateFirst p f l).find? p = some (f a) := by
  induction l with
  | nil => simp at h
  | cons x xs ih =>
    by_cases hx : p x
    · rw [List.find?_cons_of_pos _ hx] at h
      cases h
      unfold updateFirst
      rw [if_pos hx, List.find?_cons_of_pos _ hf]
    · rw [List.find?_cons_of_neg _ hx] at h
      unfold updateFirst
      rw [if_neg hx, List.find?_cons_of_neg _ hx, ih h]

theorem countP_updateFirst {p q : α → Bool} {f : α → α} {l : List α} {a : α}
    (h : l.find? p = some a) (hqa : q a = false) (hqfa : q (f a) = true) :
    (updateFirst p f l).countP q = l.countP q + 1 := by
  induction l with
  | nil => simp at h
  | cons x xs ih =>
    by_cases hx : p x
    · rw [List.find?_cons_of_pos _ hx] at h
      cases h
      unfold updateFirst
      rw [if_pos hx]
      simp [List.countP_cons, hqa, hqfa]
    · rw [List.find?_cons_of_neg _ hx] at h
      unfold updateFirst
      rw [if_neg hx]
      by_cases hqx : q x <;> simp [List.countP_cons, ih h, hqx]

theorem find?_append_left_none {p : α → Bool} {l₁ l₂ : List α}
    (h : l₁.find? p = none) : (l₁ ++ l₂).find? p = l₂.find? p := by
  rw [List.find?_append, h, Option.none_or]

theorem countP_updateFirst_preserved {p q : α → Bool} {f : α → α} {l : List α} {a : α}
    (h : l.find? p = some a) (hqa : q a = true) (hqfa : q (f a) = true) :
    (updateFirst p f l).countP q = l.countP q := by
  induction l with
  | nil => simp at h
  | cons x xs ih =>
    by_cases hx : p x
    · rw [List.find?_cons_of_pos _ hx] at h
      cases h
      unfold updateFirst
      rw [if_pos hx]
      simp [List.countP_cons, hqa, hqfa]
    · rw [List.find?_cons_of_neg _ hx] at h
      unfold updateFirst
      rw [if_neg hx]
      simp [List.countP_cons, ih h]

/-! ### Helper lemmas on the services -/

theorem receive_webhook_fields (reg : Registry) (fid : Nat) (now : Int)
    (provider payload event_type : String) (sig raw : Option String) (db : DB) :
    (receive_webhook reg fid now provider payload event_type sig raw db).1.id = fid
    ∧ (receive_webhook reg fid now provider payload event_type sig raw db).1.processed = false
    ∧ (receive_webhook reg fid now provider payload event_type sig raw db).1.retry_count = 0
    ∧ (receive_webhook reg fid now provider payload event_type sig raw db).2.webhook_events
        = db.webhook_events
          ++ [(receive_webhook reg fid now provider payload event_type sig raw db).1]
    ∧ (receive_webhook reg fid now provider payload event_type sig raw db).2.transactions
        = db.transactions
    ∧ (receive_webhook reg fid now provider payload event_type sig raw db).2.audit_logs
        = db.audit_logs := by
  unfold receive_webhook
  cases hb : (truthyStr sig && truthyStr raw)
  · simp [hb]
  · cases hr : reg provider <;> simp [hb, hr]

theorem process_webhook_of_processed (reg : Registry) (now : Int) (i : Nat) (db : DB)
    (e : WebhookEvent) (hfind : db.webhook_events.find? (fun x => x.id == i) = some e)
    (hp : e.processed = true) :
    process_webhook reg now i db = .ok (true, db) := by
  unfold process_webhook
  rw [hfind]
  simp [hp]

/-! ### Helper lemmas on the phone normaliser -/

theorem dropWhile_eq_self_of_none {p : α → Bool} {l : List α}
    (h : ∀ c ∈ l, p c = false) : l.dropWhile p = l := by
  cases l with
  | nil => rfl
  | cons x xs =>
    rw [List.dropWhile_cons, if_neg]
    simp [h x (by simp)]

theorem mem_of_mem_pyStrip {c : Char} {l : List Char} (h : c ∈ pyStrip l) : c ∈ l := by
  unfold pyStrip at h
  rw [List.mem_reverse] at h
  have h2 := (List.dropWhile_sublist pyWhitespace).subset h
  rw [List.mem_reverse] at h2
  exact (List.dropWhile_sublist pyWhitespace).subset h2

theorem pyStrip_eq_self {l : List Char} (h : ∀ c ∈ l, pyWhitespace c = false) :
    pyStrip l = l := by
  unfold pyStrip
  rw [dropWhile_eq_self_of_none h, dropWhile_eq_self_of_none, List.reverse_reverse]
  intro c hc
  exact h c (List.mem_reverse.mp hc)

theorem mem_strippedPhone {c : Char} {l : List Char} (h : c ∈ strippedPhone l) :
    c ∈ l ∧ c ≠ ' ' ∧ c ≠ '-' := by
  unfold strippedPhone removeAll at h
  obtain ⟨h1, hd⟩ := List.mem_filter.mp h
  obtain ⟨h2, hs⟩ := List.mem_filter.mp h1
  exact ⟨mem_of_mem_pyStrip h2, by simpa using hs, by simpa using hd⟩

theorem strippedPhone_eq_self {l : List Char}
    (h : ∀ c ∈ l, pyWhitespace c = false ∧ c ≠ '-') : strippedPhone l = l := by
  have hsp : ∀ c ∈ l, c ≠ ' ' := by
    intro c hc he
    have := (h c hc).1
    rw [he] at this
    simp [pyWhitespace] at this
  unfold strippedPhone removeAll
  rw [pyStrip_eq_self (fun c hc => (h c hc).1)]
  rw [List.filter_eq_self.mpr
    (fun c hc => by simpa using (h c (List.mem_filter.mp hc).1).2)]
  rw [List.filter_eq_self.mpr (fun c hc => by simpa using hsp c hc)]

theorem normalisePhone_shape {p : List Char} (hp : p ≠ []) :
    ∃ t, normalisePhone p = '2' :: '5' :: '4' :: t ∧ ∀ c ∈ t, c ∈ strippedPhone p := by
  unfold normalisePhone
  rw [if_neg hp]
  have hdropmem : ∀ (l : List Char) (n : Nat) (c : Char), c ∈ l.drop n → c ∈ l :=
    fun l n c hc => (List.drop_sublist n l).subset hc
  by_cases h1 : (strippedPhone p).take 1 = ['+'] <;>
    simp only [h1, if_true, if_false, reduceIte]
  · -- a leading plus was dropped
    by_cases h2 : ((strippedPhone p).drop 1).take 1 = ['0'] <;>
      simp only [h2, reduceIte]
    · refine ⟨((strippedPhone p).drop 1).drop 1, by simp, ?_⟩
      intro c hc
      exact hdropmem _ _ _ (hdropmem _ _ _ hc)
    · by_cases h3 : ((strippedPhone p).drop 1).take 3 = ['2', '5', '4'] <;>
        simp only [h3, reduceIte]
      · refine ⟨((strippedPhone p).drop 1).drop 3, ?_, ?_⟩
        · conv =>
            lhs
            rw [← List.take_append_drop 3 ((strippedPhone p).drop 1), h3]
          rfl
        · intro c hc
          exact hdropmem _ _ _ (hdropmem _ _ _ hc)
      · exact ⟨(strippedPhone p).drop 1, rfl, fun c hc => hdropmem _ _ _ hc⟩
  · by_cases h2 : (strippedPhone p).take 1 = ['0'] <;> simp only [h2, reduceIte]
    · refine ⟨(strippedPhone p).drop 1, by simp, fun c hc => hdropmem _ _ _ hc⟩
    · by_cases h3 : (strippedPhone p).take 3 = ['2', '5', '4'] <;>
        simp only [h3, reduceIte]
      · refine ⟨(strippedPhone p).drop 3, ?_, fun c hc => hdropmem _ _ _ hc⟩
        conv =>
          lhs
          rw [← List.take_append_drop 3 (strippedPhone p), h3]
        rfl
      · exact ⟨strippedPhone p, rfl, fun c hc => hc⟩

/-- A list of clean characters prefixed by `254` is a fixed point of the
normaliser: nothing is stripped, no branch fires, and the string already
starts with `254`. -/
theorem normalisePhone_clean_fixed {t : List Char}
    (h : ∀ c ∈ '2' :: '5' :: '4' :: t, pyWhitespace c = false ∧ c ≠ '-') :
    normalisePhone ('2' :: '5' :: '4' :: t) = '2' :: '5' :: '4' :: t := by
  unfold normalisePhone
  rw [if_neg (by simp)]
  rw [strippedPhone_eq_self h]
  simp

/-! ### Claim theorems -/

/-- Claim C2, counterexample: the StandardBankPay adapter maps the unknown
upstream status code `IN_FLIGHT` (absent from its status-code map) to
`processing`, not to `pending` as the claim states. -/
theorem sbp_unknown_status_not_pending :
    sbpStatusMap.lookup "IN_FLIGHT" = none
    ∧ sbpMapStatus "IN_FLIGHT" = "processing"
    ∧ sbpMapStatus "IN_FLIGHT" ≠ "pending" := by
  decide

/-- Claim C2, amended: an upstream status code absent from the adapter's map
defaults to `pending` in the CPay adapter (both for missing statuses and
unknown codes) and in both M-Pesa maps, but the StandardBankPay adapter
defaults unknown codes to `processing` (in `_map_status` and in its webhook
event map). -/
theorem status_map_default_amended (s1 s2 s3 s4 s5 : String)
    (h1 : sbpStatusMap.lookup s1 = none)
    (h2 : sbpWebhookStatusMap.lookup s2 = none)
    (h3 : CPAY_STATUS_MAP.lookup (pyLower s3) = none)
    (h4 : RESULT_CODE_MAP.lookup s4 = none)
    (h5 : STK_STATUS_MAP.lookup s5 = none) :
    sbpMapStatus s1 = "processing"
    ∧ sbpWebhookMapStatus s2 = "processing"
    ∧ cpayMapStatus none = "pending"
    ∧ cpayMapStatus (some s3) = "pending"
    ∧ mapResultCode s4 = "pending"
    ∧ stkMapStatus s5 = "pending" := by
  refine ⟨?_, ?_, rfl, ?_, ?_, ?_⟩
  · simp [sbpMapStatus, h1]
  · simp [sbpWebhookMapStatus, h2]
  · by_cases he : s3 = "" <;> simp [cpayMapStatus, he, h3]
  · simp [mapResultCode, h4]
  · simp [stkMapStatus, h5]

theorem status_map_default_amended_witness :
    sbpMapStatus "UNKNOWN_UPSTREAM" = "processing"
    ∧ sbpWebhookMapStatus "UNKNOWN_UPSTREAM" = "processing"
    ∧ cpayMapStatus none = "pending"
    ∧ cpayMapStatus (some "UNKNOWN_UPSTREAM") = "pending"
    ∧ mapResultCode "UNKNOWN_UPSTREAM" = "pending"
    ∧ stkMapStatus "UNKNOWN_UPSTREAM" = "pending" :=
  status_map_default_amended "UNKNOWN_UPSTREAM" "UNKNOWN_UPSTREAM" "UNKNOWN_UPSTREAM"
    "UNKNOWN_UPSTREAM" "UNKNOWN_UPSTREAM"
    (by decide) (by decide) (by decide) (by decide) (by decide)

/-- Claim C10, counterexample: the normaliser is not idempotent on every
string (a tab kept alive by a later hyphen is stripped only on the second
pass), and an interior plus sign survives normalisation. -/
theorem normalise_phone_counterexample :
    normalisePhone (normalisePhone ['7', '\t', '-']) ≠ normalisePhone ['7', '\t', '-']
    ∧ '+' ∈ normalisePhone ['2', '+', '5', '4'] := by
  decide

/-- Claim C10, amended: normalising twice equals normalising once for every
input whose whitespace characters are all plain spaces; for every non-empty
input the result starts with `254` and contains no space or hyphen (a
non-leading `+` may remain). -/
theorem normalise_phone_amended (p : List Char) :
    ((∀ c ∈ p, pyWhitespace c = true → c = ' ') →
        normalisePhone (normalisePhone p) = normalisePhone p)
    ∧ (p ≠ [] → (normalisePhone p).take 3 = ['2', '5', '4'])
    ∧ (∀ c ∈ normalisePhone p, c ≠ ' ' ∧ c ≠ '-') := by
  by_cases hp : p = []
  · subst hp
    refine ⟨fun _ => rfl, fun h => absurd rfl h, ?_⟩
    intro c hc
    simp [normalisePhone] at hc
  · obtain ⟨t, ht, hmem⟩ := normalisePhone_shape hp
    have htail : ∀ c ∈ t, c ∈ p ∧ c ≠ ' ' ∧ c ≠ '-' :=
      fun c hc => mem_strippedPhone (hmem c hc)
    have hclean : ∀ c ∈ normalisePhone p, c ≠ ' ' ∧ c ≠ '-' := by
      intro c hc
      rw [ht] at hc
      simp only [List.mem_cons] at hc
      rcases hc with rfl | rfl | rfl | hc
      · exact ⟨by decide, by decide⟩
      · exact ⟨by decide, by decide⟩
      · exact ⟨by decide, by decide⟩
      · exact (htail c hc).2
    refine ⟨?_, fun _ => by rw [ht]; rfl, hclean⟩
    intro hws
    rw [ht]
    apply normalisePhone_clean_fixed
    intro c hc
    simp only [List.mem_cons] at hc
    rcases hc with rfl | rfl | rfl | hc
    · exact ⟨by decide, by decide⟩
    · exact ⟨by decide, by decide⟩
    · exact ⟨by decide, by decide⟩
    · refine ⟨?_, (htail c hc).2.2⟩
      cases hw : pyWhitespace c
      · rfl
      · exact absurd (hws c (htail c hc).1 hw) (htail c hc).2.1

theorem normalise_phone_amended_witness :
    normalisePhone (normalisePhone ['0', '7', '1', '2']) = normalisePhone ['0', '7', '1', '2']
    ∧ (normalisePhone ['0', '7', '1', '2']).take 3 = ['2', '5', '4'] :=
  ⟨(normalise_phone_amended ['0', '7', '1', '2']).1 (by decide),
   (normalise_phone_amended ['0', '7', '1', '2']).2.1 (by decide)⟩

/-- Claim C8: an amount of zero or less is rejected by the schema validator,
the endpoint answers HTTP 400 and the database (hence the transaction table)
is untouched; any amount of the form n/100 with n positive passes the
validator and lets the view proceed. -/
theorem initialize_amount_gate (handler : DB → HttpResponse × DB) (a : Rat)
    (db : DB) (n : Int) :
    (a ≤ 0 → initialize_payment_endpoint handler a db
        = ({ status_code := 400, success := false }, db))
    ∧ (a = (n : Rat) / 100 → 0 < n →
        validate_amount a = .ok ()
        ∧ initialize_payment_endpoint handler a db = handler db) := by
  constructor
  · intro h
    simp [initialize_payment_endpoint, validate_amount, h]
  · rintro rfl hn
    have hpos : (0 : Rat) < (n : Rat) / 100 := by
      apply div_pos _ (by norm_num)
      exact_mod_cast hn
    have hne : ¬((n : Rat) / 100 ≤ 0) := not_le.mpr hpos
    exact ⟨by simp [validate_amount, hne],
           by simp [initialize_payment_endpoint, validate_amount, hne]⟩

theorem initialize_amount_gate_witness :
    initialize_payment_endpoint okHandler (-5) preWebhookDB
        = ({ status_code := 400, success := false }, preWebhookDB)
    ∧ validate_amount ((1 : Rat) / 100) = .ok () :=
  ⟨(initialize_amount_gate okHandler (-5) preWebhookDB 1).1 (by norm_num),
   ((initialize_amount_gate okHandler ((1 : Rat) / 100) preWebhookDB 1).2 rfl
      (by norm_num)).1⟩

/-- Claim C6: `verify_payment` on a transaction whose status is COMPLETED or
REFUNDED returns the stored record and leaves the database unchanged, and a
second `verify_payment` on the resulting state returns the same record and
state again. -/
theorem verify_terminal_noop (reg : Registry) (now now2 : Int) (i : Nat) (db : DB)
    (t : Transaction)
    (hfind : db.transactions.find? (fun x => x.id == i) = some t)
    (hterm : t.status = TransactionStatus.COMPLETED
        ∨ t.status = TransactionStatus.REFUNDED) :
    verify_payment reg now i db = (db, .ok t)
    ∧ verify_payment reg now2 i (verify_payment reg now i db).1 = (db, .ok t) := by
  have h1 : verify_payment reg now i db = (db, .ok t) := by
    unfold verify_payment
    rw [hfind]
    simp [hterm]
  have h2 : verify_payment reg now2 i db = (db, .ok t) := by
    unfold verify_payment
    rw [hfind]
    simp [hterm]
  refine ⟨h1, ?_⟩
  rw [h1]
  exact h2

theorem verify_terminal_noop_witness :
    verify_payment demoRegistry 3 1 (demoDB TransactionStatus.COMPLETED)
      = (demoDB TransactionStatus.COMPLETED,
         .ok (demoTransaction TransactionStatus.COMPLETED)) := by
  exact (verify_terminal_noop demoRegistry 3 4 1 (demoDB TransactionStatus.COMPLETED)
    (demoTransaction TransactionStatus.COMPLETED) (by decide) (Or.inl rfl)).1

/-- Claim C3, counterexample: replaying a cached `/payments/initialize`
response keeps the original 201 status code, but the replayed body carries
the injected `_status_code` member the first response body did not have, so
the two bodies are not byte-equal under any JSON serialisation. -/
theorem idempotent_replay_body_not_byte_equal :
    (idempotent_call DEFAULT_TTL 1010 (some "HP-001") demoHandler
        (idempotent_call DEFAULT_TTL 1000 (some "HP-001") demoHandler []).2).1.2
      = (idempotent_call DEFAULT_TTL 1000 (some "HP-001") demoHandler []).1.2
    ∧ (idempotent_call DEFAULT_TTL 1010 (some "HP-001") demoHandler
        (idempotent_call DEFAULT_TTL 1000 (some "HP-001") demoHandler []).2).1.1
      ≠ (idempotent_call DEFAULT_TTL 1000 (some "HP-001") demoHandler []).1.1 := by
  decide

/-- Claim C3, amended: within the TTL the cached response is replayed with
its original status code, and every replayed body equals the first response
body extended with a `_status_code` member recording that code — hence (when
the handler body has no such member) the replayed bodies are not byte-equal
to the first body. -/
theorem idempotent_replay_amended (ttl : Nat) (now now2 : Int) (key : String)
    (handler : Unit → JBody × Nat) (c : Cache)
    (hmiss : cache_get now ("idempotency:" ++ key) c = none)
    (hlive : now2 < now + (ttl : Int)) :
    (idempotent_call ttl now (some key) handler c).1 = handler ()
    ∧ (idempotent_call ttl now2 (some key) handler
        (idempotent_call ttl now (some key) handler c).2).1.2 = (handler ()).2
    ∧ (idempotent_call ttl now2 (some key) handler
        (idempotent_call ttl now (some key) handler c).2).1.1
      = setKey "_status_code" (JVal.n (handler ()).2) (handler ()).1
    ∧ ((handler ()).1.lookup "_status_code" = none →
        (idempotent_call ttl now2 (some key) handler
          (idempotent_call ttl now (some key) handler c).2).1.1 ≠ (handler ()).1) := by
  have hfirst : idempotent_call ttl now (some key) handler c
      = (handler (), cache_set now ttl ("idempotency:" ++ key)
          (setKey "_status_code" (JVal.n (handler ()).2) (handler ()).1) c) := by
    simp only [idempotent_call]
    rw [hmiss]
  have hstored : cache_get now2 ("idempotency:" ++ key)
      (cache_set now ttl ("idempotency:" ++ key)
        (setKey "_status_code" (JVal.n (handler ()).2) (handler ()).1) c)
      = some (setKey "_status_code" (JVal.n (handler ()).2) (handler ()).1) := by
    unfold cache_get cache_set
    rw [lookup_setKey_self]
    simp [hlive]
  have hsecond : idempotent_call ttl now2 (some key) handler
      (idempotent_call ttl now (some key) handler c).2
      = ((setKey "_status_code" (JVal.n (handler ()).2) (handler ()).1, (handler ()).2),
         (idempotent_call ttl now (some key) handler c).2) := by
    rw [hfirst]
    simp only [idempotent_call]
    simp only [hstored]
    rw [if_neg (setKey_ne_nil _ _ _)]
    simp only [lookup_setKey_self]
  refine ⟨by rw [hfirst], by rw [hsecond], by rw [hsecond], ?_⟩
  intro hnone heq
  have hlook := lookup_setKey_self "_status_code" (JVal.n (handler ()).2) (handler ()).1
  rw [hsecond] at heq
  rw [show ((setKey "_status_code" (JVal.n (handler ()).2) (handler ()).1,
      (handler ()).2), (idempotent_call ttl now (some key) handler c).2).1.1
      = setKey "_status_code" (JVal.n (handler ()).2) (handler ()).1 from rfl] at heq
  rw [heq, hnone] at hlook
  exact Option.noConfusion hlook

theorem idempotent_replay_amended_witness :
    (idempotent_call DEFAULT_TTL 2010 (some "HP-002") demoHandler
        (idempotent_call DEFAULT_TTL 2000 (some "HP-002") demoHandler []).2).1.2
      = (demoHandler ()).2
    ∧ (idempotent_call DEFAULT_TTL 2010 (some "HP-002") demoHandler
        (idempotent_call DEFAULT_TTL 2000 (some "HP-002") demoHandler []).2).1.1
      ≠ (demoHandler ()).1 := by
  obtain ⟨h1, h2, h3, h4⟩ := idempotent_replay_amended DEFAULT_TTL 2000 2010 "HP-002"
    demoHandler [] rfl (by decide)
  exact ⟨h2, h4 rfl⟩

/-- Claim C1, counterexample: a transaction in FAILED is moved to COMPLETED
by `process_webhook` carrying a completed status — an illegal transition by
the claimed table — yet the call succeeds and no `InvariantViolation`
exists or is raised, and the status does not stay unchanged. -/
theorem process_webhook_performs_illegal_transition :
    (demoDB TransactionStatus.FAILED).transactions.map Transaction.status
      = [TransactionStatus.FAILED]
    ∧ (process_webhook demoRegistry 100 7 (demoDB TransactionStatus.FAILED)).map
        (fun r => (r.1, r.2.transactions.map Transaction.status))
      = .ok (true, [TransactionStatus.COMPLETED]) := by
  exact ⟨rfl, rfl⟩

/-- Claim C1, amended: the code guards only two places — `verify_payment`
returns COMPLETED/REFUNDED transactions unchanged, and `refund_payment`
raises `ValueError` (not an `InvariantViolation`, which does not exist)
leaving the state unchanged unless the status is COMPLETED — while
`process_webhook` applies a completed/failed/refunded webhook status to the
matched transaction whatever its current status, succeeding silently on
transitions like FAILED→COMPLETED. -/
theorem transition_guards_amended :
    (∀ (reg : Registry) (now : Int) (i : Nat) (db : DB) (t : Transaction),
        db.transactions.find? (fun x => x.id == i) = some t →
        (t.status = TransactionStatus.COMPLETED
          ∨ t.status = TransactionStatus.REFUNDED) →
        verify_payment reg now i db = (db, .ok t))
    ∧ (∀ (reg : Registry) (i : Nat) (amount : Option Rat) (reason : Option String)
          (db : DB) (t : Transaction),
        db.transactions.find? (fun x => x.id == i) = some t →
        t.status ≠ TransactionStatus.COMPLETED →
        refund_payment reg i amount reason db
          = (db, .error "Can only refund completed transactions"))
    ∧ (∀ s : TransactionStatus,
        (process_webhook demoRegistry 100 7 (demoDB s)).map
          (fun r => (r.1, r.2.transactions.map Transaction.status))
        = .ok (true, [TransactionStatus.COMPLETED])) := by
  refine ⟨?_, ?_, ?_⟩
  · intro reg now i db t hfind hterm
    unfold verify_payment
    rw [hfind]
    simp [hterm]
  · intro reg i amount reason db t hfind hne
    unfold refund_payment
    rw [hfind]
    simp [hne]
  · intro s
    cases s <;> rfl

theorem transition_guards_amended_witness :
    verify_payment demoRegistry 9 1 (demoDB TransactionStatus.REFUNDED)
      = (demoDB TransactionStatus.REFUNDED,
         .ok (demoTransaction TransactionStatus.REFUNDED))
    ∧ refund_payment demoRegistry 1 none none (demoDB TransactionStatus.PENDING)
      = (demoDB TransactionStatus.PENDING,
         .error "Can only refund completed transactions")
    ∧ (process_webhook demoRegistry 100 7 (demoDB TransactionStatus.FAILED)).map
        (fun r => (r.1, r.2.transactions.map Transaction.status))
      = .ok (true, [TransactionStatus.COMPLETED]) := by
  refine ⟨?_, ?_, transition_guards_amended.2.2 TransactionStatus.FAILED⟩
  · exact transition_guards_amended.1 demoRegistry 9 1 (demoDB TransactionStatus.REFUNDED)
      (demoTransaction TransactionStatus.REFUNDED) rfl (Or.inr rfl)
  · exact transition_guards_amended.2.1 demoRegistry 1 none none
      (demoDB TransactionStatus.PENDING) (demoTransaction TransactionStatus.PENDING)
      rfl (by decide)

/-- Claim C4: the retry scan selects exactly the events with
`processed=false` and `retry_count < 5`; the schedule entry for
`retry_count = 4` is 21600 s and the last entry is reused past the table; a
single due event at `retry_count = 4` is handed to `process_webhook` by the
scheduler; an event at `retry_count = 5` is never touched; and the
dead-letter queue holds exactly the unprocessed events with
`retry_count >= 5`. -/
theorem retry_scheduler_spec (db : DB) (e : WebhookEvent) (reg : Registry) (now : Int) :
    (e ∈ retryScan db ↔
      e ∈ db.webhook_events ∧ e.processed = false
        ∧ e.retry_count < MAX_RETRY_ATTEMPTS)
    ∧ retryInterval 4 = 21600
    ∧ (∀ rc : Nat, MAX_RETRY_ATTEMPTS ≤ rc → retryInterval rc = 21600)
    ∧ (db.webhook_events = [e] → e.processed = false → e.retry_count = 4 →
        (21600 : Int) ≤ now - e.created_at →
        retry_failed_webhooks reg now db
          = match process_webhook reg now e.id db with
            | .ok (true, db1) => (1, db1)
            | .ok (false, db1) => (0, db1)
            | .error _ => (0, db))
    ∧ (db.webhook_events = [e] → e.retry_count = MAX_RETRY_ATTEMPTS →
        retry_failed_webhooks reg now db = (0, db))
    ∧ (e ∈ get_dead_letter_queue db ↔
        e ∈ db.webhook_events ∧ e.processed = false
          ∧ MAX_RETRY_ATTEMPTS ≤ e.retry_count) := by
  refine ⟨?_, rfl, ?_, ?_, ?_, ?_⟩
  · simp [retryScan, List.mem_filter]
  · intro rc h
    unfold retryInterval
    rw [if_pos (by simpa [RETRY_SCHEDULE] using h)]
    rfl
  · intro hdb hp hrc helig
    have hfilter : List.filter
        (fun x => !x.processed && decide (x.retry_count < MAX_RETRY_ATTEMPTS)) [e]
        = [e] := by
      simp [hp, hrc, MAX_RETRY_ATTEMPTS]
    unfold retry_failed_webhooks retryScan
    rw [hdb, hfilter]
    simp only [List.foldl_cons, List.foldl_nil]
    rw [if_pos (by rw [hrc]; exact helig)]
  · intro hdb hrc
    have hfilter : List.filter
        (fun x => !x.processed && decide (x.retry_count < MAX_RETRY_ATTEMPTS)) [e]
        = [] := by
      simp [hrc, MAX_RETRY_ATTEMPTS]
    unfold retry_failed_webhooks retryScan
    rw [hdb, hfilter]
    rfl
  · simp [get_dead_letter_queue, List.mem_filter]

theorem retry_scheduler_spec_witness :
    retry_failed_webhooks demoRegistry 30000 retryDB
      = (match process_webhook demoRegistry 30000 retryEvent.id retryDB with
         | .ok (true, db1) => (1, db1)
         | .ok (false, db1) => (0, db1)
         | .error _ => (0, retryDB))
    ∧ retry_failed_webhooks demoRegistry 30000 deadDB = (0, deadDB) :=
  ⟨(retry_scheduler_spec retryDB retryEvent demoRegistry 30000).2.2.2.1
      rfl rfl rfl (by decide),
   (retry_scheduler_spec deadDB deadEvent demoRegistry 30000).2.2.2.2.1 rfl rfl⟩

/-- Claim C7: `receive_webhook` always persists the event with
`processed=false` and `retry_count=0`; with a truthy signature and raw
payload the adapter's `verify_webhook_signature` result is written to
`verified`; with either absent, `verified=true`. -/
theorem receive_webhook_verified_policy (reg : Registry) (fid : Nat) (now : Int)
    (provider payload event_type : String) (sig raw : Option String) (db : DB)
    (prov : ProviderModel) (hprov : reg provider = some prov) :
    (receive_webhook reg fid now provider payload event_type sig raw db).1.processed = false
    ∧ (receive_webhook reg fid now provider payload event_type sig raw db).1.retry_count = 0
    ∧ (truthyStr sig = true → truthyStr raw = true →
        (receive_webhook reg fid now provider payload event_type sig raw db).1.verified
          = prov.verify_webhook_signature (raw.getD "") (sig.getD ""))
    ∧ ((truthyStr sig = false ∨ truthyStr raw = false) →
        (receive_webhook reg fid now provider payload event_type sig raw db).1.verified
          = true)
    ∧ (receive_webhook reg fid now provider payload event_type sig raw db).2.webhook_events
        = db.webhook_events
          ++ [(receive_webhook reg fid now provider payload event_type sig raw db).1] := by
  obtain ⟨hid, hproc, hrc, hev, htx, haud⟩ :=
    receive_webhook_fields reg fid now provider payload event_type sig raw db
  refine ⟨hproc, hrc, ?_, ?_, hev⟩
  · intro hs hr
    unfold receive_webhook
    simp [hs, hr, hprov]
  · intro hor
    unfold receive_webhook
    rcases hor with h | h <;> simp [h]

theorem receive_webhook_verified_policy_witness :
    (receive_webhook demoRegistry 21 0 "demo" "payload" "evt" (some "sig") (some "raw")
        preWebhookDB).1.verified = true
    ∧ (receive_webhook demoRegistry 22 0 "demo" "payload" "evt" none none
        preWebhookDB).1.verified = true := by
  constructor
  · have h := (receive_webhook_verified_policy demoRegistry 21 0 "demo" "payload" "evt"
      (some "sig") (some "raw") preWebhookDB demoProvider rfl).2.2.1 rfl rfl
    simpa using h
  · exact (receive_webhook_verified_policy demoRegistry 22 0 "demo" "payload" "evt"
      none none preWebhookDB demoProvider rfl).2.2.2.1 (Or.inl rfl)

/-- Claim C9: when a verified, unprocessed event resolves to an upstream
reference with no matching transaction, `process_webhook` returns failure,
writes the transaction-not-found message, increments `retry_count` by one,
and leaves `processed=false`, the transaction table and the audit log
untouched — so the event stays eligible for retry. -/
theorem process_webhook_transaction_not_found (reg : Registry) (now : Int) (i : Nat)
    (db : DB) (e : WebhookEvent) (prov : ProviderModel) (result : HandleWebhookResult)
    (hfind : db.webhook_events.find? (fun x => x.id == i) = some e)
    (hp : e.processed = false) (hv : e.verified = true)
    (hreg : reg e.provider = some prov)
    (hh : prov.handle_webhook e.payload = .ok result)
    (hft : db.transactions.find?
        (fun t => t.provider_transaction_id == some result.transaction_id) = none) :
    process_webhook reg now i db
      = .ok (false, record_webhook_failure i e
          ("Transaction not found: " ++ result.transaction_id) db)
    ∧ (record_webhook_failure i e
        ("Transaction not found: " ++ result.transaction_id) db).transactions
      = db.transactions
    ∧ (record_webhook_failure i e
        ("Transaction not found: " ++ result.transaction_id) db).audit_logs
      = db.audit_logs
    ∧ (record_webhook_failure i e
        ("Transaction not found: " ++ result.transaction_id) db).webhook_events.find?
          (fun x => x.id == i)
      = some { e with
          error_message := some ("Transaction not found: " ++ result.transaction_id),
          retry_count := e.retry_count + 1 }
    ∧ ({ e with
          error_message := some ("Transaction not found: " ++ result.transaction_id),
          retry_count := e.retry_count + 1 } : WebhookEvent).processed = false := by
  refine ⟨?_, rfl, rfl, ?_, hp⟩
  · unfold process_webhook
    rw [hfind]
    simp [hp, hv, hreg, hh, hft]
  · unfold record_webhook_failure
    exact find?_updateFirst hfind (by simpa using List.find?_some hfind)

theorem process_webhook_transaction_not_found_witness :
    process_webhook demoRegistry 40 7 orphanDB
      = .ok (false, record_webhook_failure 7 demoEvent
          ("Transaction not found: " ++ "ptx-1") orphanDB)
    ∧ (record_webhook_failure 7 demoEvent
        ("Transaction not found: " ++ "ptx-1") orphanDB).transactions
      = orphanDB.transactions := by
  have h := process_webhook_transaction_not_found demoRegistry 40 7 orphanDB demoEvent
    demoProvider
    { transaction_id := "ptx-1", event_type := "payment.completed",
      status := "completed", additional_data := "ok" }
    rfl rfl rfl rfl rfl rfl
  exact ⟨h.1, h.2.1⟩

/-- Claim C5: after `receive` of an event, a successful `process` marks
exactly one more row `processed=true` and appends exactly one audit event,
and a second `process` of the same event returns success and leaves the
database — events, transactions and audit log — exactly as it was. -/
theorem process_webhook_idempotent_law (reg : Registry) (eid : Nat)
    (now0 now1 now2 : Int) (provider payload event_type : String)
    (sig raw : Option String) (db0 db2 : DB)
    (hfresh : ∀ e ∈ db0.webhook_events, e.id ≠ eid)
    (hfirst : process_webhook reg now1 eid
        (receive_webhook reg eid now0 provider payload event_type sig raw db0).2
      = .ok (true, db2)) :
    process_webhook reg now2 eid db2 = .ok (true, db2)
    ∧ db2.webhook_events.countP (fun e => e.processed)
      = db0.webhook_events.countP (fun e => e.processed) + 1
    ∧ db2.audit_logs.length = db0.audit_logs.length + 1
    ∧ (db0.webhook_events.countP (fun e => e.processed) = 0 →
        db2.webhook_events.countP (fun e => e.processed) = 1) := by
  obtain ⟨hid, hproc, hrc, hev, htx, haud⟩ :=
    receive_webhook_fields reg eid now0 provider payload event_type sig raw db0
  set e1 := (receive_webhook reg eid now0 provider payload event_type sig raw db0).1
    with he1
  set db1 := (receive_webhook reg eid now0 provider payload event_type sig raw db0).2
    with hdb1def
  have hnone : db0.webhook_events.find? (fun x => x.id == eid) = none :=
    List.find?_eq_none.mpr (fun x hx => by simp [hfresh x hx])
  have hfind1 : db1.webhook_events.find? (fun x => x.id == eid) = some e1 := by
    rw [hev, find?_append_left_none hnone,
        List.find?_cons_of_pos _ (by simp [hid])]
  unfold process_webhook at hfirst
  simp only [hfind1] at hfirst
  rw [if_neg (by simp [hproc])] at hfirst
  cases hv : e1.verified with
  | false =>
      rw [if_pos (by simp [hv])] at hfirst
      simp at hfirst
  | true =>
      rw [if_neg (by simp [hv])] at hfirst
      cases hreg : reg e1.provider with
      | none =>
          simp only [hreg] at hfirst
          simp at hfirst
      | some prov =>
        simp only [hreg] at hfirst
        cases hh : prov.handle_webhook e1.payload with
        | error m =>
            simp only [hh] at hfirst
            simp at hfirst
        | ok result =>
          simp only [hh] at hfirst
          cases hft : db1.transactions.find?
              (fun t => t.provider_transaction_id == some result.transaction_id) with
          | none =>
              simp only [hft] at hfirst
              simp at hfirst
          | some tr =>
            simp only [hft] at hfirst
            have hdb2 : db2 = apply_webhook now1 eid e1 result tr db1 := by
              have hinj := hfirst
              simp only [Except.ok.injEq, Prod.mk.injEq] at hinj
              exact hinj.2.symm
            subst hdb2
            have hcount : (apply_webhook now1 eid e1 result tr db1).webhook_events.countP
                (fun e => e.processed)
                = db0.webhook_events.countP (fun e => e.processed) + 1 := by
              have h1 : (apply_webhook now1 eid e1 result tr db1).webhook_events.countP
                  (fun e => e.processed)
                  = db1.webhook_events.countP (fun e => e.processed) + 1 := by
                unfold apply_webhook
                exact countP_updateFirst hfind1 (by simp [hproc]) rfl
              rw [h1, hev, List.countP_append]
              simp [List.countP_cons, hproc]
            refine ⟨?_, hcount, ?_, fun h0 => by rw [hcount, h0]⟩
            · have hfind2 : (apply_webhook now1 eid e1 result tr db1).webhook_events.find?
                  (fun x => x.id == eid)
                  = some { e1 with
                      transaction_id := some tr.id,
                      processed := true,
                      processed_at := some now1 } := by
                unfold apply_webhook
                exact find?_updateFirst hfind1 (by simp [hid])
              exact process_webhook_of_processed reg now2 eid _ _ hfind2 rfl
            · unfold apply_webhook
              simp [haud]

theorem process_webhook_idempotent_law_witness :
    process_webhook demoRegistry 6 7 processedDB = .ok (true, processedDB)
    ∧ processedDB.webhook_events.countP (fun e => e.processed)
      = preWebhookDB.webhook_events.countP (fun e => e.processed) + 1
    ∧ processedDB.audit_logs.length = preWebhookDB.audit_logs.length + 1 := by
  have h := process_webhook_idempotent_law demoRegistry 7 0 5 6 "demo" "payload"
    "payment.completed" none none preWebhookDB processedDB
    (by intro e he; simp [preWebhookDB] at he)
    (by rfl)
  exact ⟨h.1, h.2.1, h.2.2.1⟩

end MyPay
